import Mathlib

/-!
Shallow embedding of the vertical-autoscaling core of the
`Orchestration-des-ressources-avec-Heat` repository:
`metrics_adapter/validator.py`, `metrics_adapter/heat_client.py` and
`metrics_adapter/adapter.py`.

Python dictionaries carrying JSON payloads are embedded as association
lists over a small value type `PyVal`; a Python function that may raise
an uncaught exception is embedded as `Except String _`, the `.error`
case carrying the exception text.  Wall-clock reads (`time.time()`) are
passed in as an explicit `now : ℚ` argument, and environment-derived
configuration (`COOLDOWN_SECONDS`) as an explicit parameter.
-/

namespace MetricsAdapter

/-- A Python/JSON value as it appears in the alert payloads: a number
(`int`/`float`, embedded as `ℚ`) or a string. -/
inductive PyVal where
  | num (q : ℚ)
  | str (s : String)
deriving DecidableEq, Repr

/-- A Python dict, embedded as an association list. -/
abbrev PyDict := List (String × PyVal)

/-- `data[k]` lookup, `none` when the key is absent. -/
def dictGet (data : PyDict) (k : String) : Option PyVal :=
  (data.find? (fun p => p.1 == k)).map Prod.snd

/-- `k in data` membership test. -/
def contientChamp (data : PyDict) (k : String) : Bool :=
  (dictGet data k).isSome

/-- `SECRET_TOKEN = os.getenv("SECRET_TOKEN", "heat-secret-token")`
(validator.py line 29), taken at its default. -/
def SECRET_TOKEN : String := "heat-secret-token"

/-- The `RULES` table of validator.py lines 34-43. -/
def cpu_min : ℚ := 0
def cpu_max : ℚ := 100
def ram_min : ℚ := 0
def ram_max : ℚ := 100
def max_age_seconds : ℚ := 60
def required_fields : List String := ["source", "token", "cpu", "ram", "timestamp"]

/-- Python `s.strip()`, expressed over the character list: drop leading
and trailing whitespace. -/
def strip (s : String) : List Char :=
  ((s.toList.dropWhile Char.isWhitespace).reverse.dropWhile Char.isWhitespace).reverse

/-- `valider_alerte` (validator.py lines 49-125).  Returns the
`(bool, reason)` pair of the source; `.error` models an uncaught Python
exception (`KeyError` on a missing subscript, `TypeError` when
`time.time() - timestamp` is applied to a non-numeric timestamp —
the source never type-checks `timestamp`, unlike `cpu` and `ram`). -/
def valider_alerte (now : ℚ) (data : PyDict) : Except String (Bool × String) :=
  if data.isEmpty then .ok (false, "Données vides")
  else
  match required_fields.find? (fun champ => !(contientChamp data champ)) with
  | some champ => .ok (false, "Champ obligatoire manquant : " ++ champ)
  | none =>
  match dictGet data "token" with
  | none => .error "KeyError: token"
  | some tok =>
  if tok ≠ PyVal.str SECRET_TOKEN then .ok (false, "Token d\x27authentification invalide")
  else
  match dictGet data "cpu" with
  | none => .error "KeyError: cpu"
  | some (PyVal.str _) => .ok (false, "La valeur CPU doit être un nombre")
  | some (PyVal.num cpu) =>
  if ¬(cpu_min ≤ cpu ∧ cpu ≤ cpu_max) then
    .ok (false, "CPU hors limites : " ++ toString cpu ++ "% (attendu entre 0 et 100)")
  else
  match dictGet data "ram" with
  | none => .error "KeyError: ram"
  | some (PyVal.str _) => .ok (false, "La valeur RAM doit être un nombre")
  | some (PyVal.num ram) =>
  if ¬(ram_min ≤ ram ∧ ram ≤ ram_max) then
    .ok (false, "RAM hors limites : " ++ toString ram ++ "% (attendu entre 0 et 100)")
  else
  match dictGet data "timestamp" with
  | none => .error "KeyError: timestamp"
  | some (PyVal.str _) => .error "TypeError: unsupported operand type for -: float and str"
  | some (PyVal.num ts) =>
  let age := now - ts
  if age > max_age_seconds then
    .ok (false, "Alerte trop ancienne : " ++ toString age ++ " secondes")
  else if age < 0 then .ok (false, "Timestamp invalide : date dans le futur")
  else
  match dictGet data "source" with
  | none => .error "KeyError: source"
  | some (PyVal.num _) => .ok (false, "Source non identifiée")
  | some (PyVal.str source) =>
  if (strip source).length == 0 then .ok (false, "Source non identifiée")
  else .ok (true, "OK")

/-- The scaling-policy fields read by `determiner_action`
(`policies.get("scale_up_threshold", 80)` / `("scale_down_threshold", 20)`,
validator.py lines 141-142); the defaults of the `.get` calls are the
structure's defaults. -/
structure Policies where
  scale_up_threshold : ℚ := 80
  scale_down_threshold : ℚ := 20
deriving Repr

/-- `determiner_action` (validator.py lines 131-162). -/
def determiner_action (cpu : ℚ) (policies : Policies) : String :=
  if cpu > policies.scale_up_threshold then "scale_up"
  else if cpu < policies.scale_down_threshold then "scale_down"
  else "none"

/-- The `progression["scale_up"]` dict of validator.py lines 176-180. -/
def progression_scale_up : List (String × String) :=
  [("m1.small", "m1.medium"), ("m1.medium", "m1.large"), ("m1.large", "m1.large")]

/-- The `progression["scale_down"]` dict of validator.py lines 181-185. -/
def progression_scale_down : List (String × String) :=
  [("m1.large", "m1.medium"), ("m1.medium", "m1.small"), ("m1.small", "m1.small")]

/-- `table.get(k, d)` on a string-to-string dict. -/
def tableGet (table : List (String × String)) (k d : String) : String :=
  match table.find? (fun p => p.1 == k) with
  | some p => p.2
  | none => d

/-- `determiner_nouveau_flavor` (validator.py lines 165-203). -/
def determiner_nouveau_flavor (action flavor_actuel : String) : String :=
  if action == "scale_up" then tableGet progression_scale_up flavor_actuel flavor_actuel
  else if action == "scale_down" then tableGet progression_scale_down flavor_actuel flavor_actuel
  else flavor_actuel

/-- The ordered flavor catalog underlying the progression tables. -/
def flavor_catalog : List String := ["m1.small", "m1.medium", "m1.large"]

/-- The mutable module state `_state` of heat_client.py lines 40-46
(`stack_name` is never read by the resize pipeline and is omitted;
`_nova_client is None` is tracked by the separate flag `nova_present`,
since the source tests both `_state["connected"]` and `_nova_client`). -/
structure HeatState where
  last_scaling_time : ℚ
  current_flavor : String
  vm_id : Option String
  connected : Bool
  nova_present : Bool
deriving Repr, DecidableEq

/-- The dict returned by `effectuer_resize` (heat_client.py lines 183-188). -/
structure ResizeOutcome where
  success : Bool
  message : String
  ancien_flavor : String
  nouveau_flavor : String
  action : String
deriving Repr, DecidableEq

/-- The OpenStack/Nova collaborator as the resize path uses it.  Each
round-trip that the source wraps in `try` is an `Except`, `.error`
modelling a raised exception.  `statuses k` is the server status seen on
the `k`-th refresh of the polling loop, and `poll_budget` the number of
poll iterations that fit before the 120-second timeout elapses (the
source polls every 5 seconds). -/
structure Provider where
  servers_search : String → Except String (List String)
  flavors_list : Except String (List String)
  servers_get : String → Except String Unit
  submit_resize : String → Except String Unit
  statuses : Nat → String
  poll_budget : Nat
  confirm : String → Except String Unit

/-- `cooldown_respecte` (heat_client.py lines 149-168), with the
`time.time()` read and the `COOLDOWN_SECONDS` configuration passed
explicitly. -/
def cooldown_respecte (now last_scaling_time cooldown_seconds : ℚ) : Bool :=
  let temps_ecoule := now - last_scaling_time
  if temps_ecoule < cooldown_seconds then false
  else true

/-- `recuperer_vm_id` (heat_client.py lines 114-143).  Returns the id
found (or `none`), the updated state (the source caches the id in
`_state["vm_id"]` on success), and the provider calls made. -/
def recuperer_vm_id (p : Provider) (st : HeatState) (vm_name : String) :
    Option String × HeatState × List String :=
  if !st.connected || !st.nova_present then (some "mock-vm-id-12345", st, [])
  else
    match p.servers_search vm_name with
    | .error _ => (none, st, ["servers_list"])
    | .ok [] => (none, st, ["servers_list"])
    | .ok (vm_id :: _) => (some vm_id, { st with vm_id := some vm_id }, ["servers_list"])

/-- `_attendre_statut` (heat_client.py lines 306-332): poll the status
sequence from index `k` while fuel remains; `true` on reaching the
target status, `false` on an `ERROR` status or when the timeout (fuel)
runs out. -/
def attendre_statut (statuses : Nat → String) (statut_cible : String) :
    Nat → Nat → Bool
  | _, 0 => false
  | k, fuel + 1 =>
    let statut := statuses k
    if statut == statut_cible then true
    else if statut == "ERROR" then false
    else attendre_statut statuses statut_cible (k + 1) fuel

/-- `_resize_openstack` (heat_client.py lines 223-303).  Returns the
outcome dict, the updated `_state`, and the trace of provider calls.
The source binds the result of `_attendre_statut` nowhere: it calls
`serveur.confirm_resize()` and commits the tier/cooldown update
whether or not the `VERIFY_RESIZE` status was ever reached, which the
`let _ :=` below reproduces. -/
def resize_openstack (p : Provider) (now : ℚ) (st : HeatState)
    (vm_name ancien_flavor nouveau_flavor : String) :
    ResizeOutcome × HeatState × List String :=
  let resolu :=
    match st.vm_id with
    | some _ => (st, ([] : List String))
    | none =>
      let r := recuperer_vm_id p st vm_name
      ({ r.2.1 with vm_id := r.1 }, r.2.2)
  let st1 := resolu.1
  let trace1 := resolu.2
  match st1.vm_id with
  | none =>
    ({ success := false, message := "VM introuvable : " ++ vm_name,
       ancien_flavor := ancien_flavor, nouveau_flavor := nouveau_flavor,
       action := "error" }, st1, trace1)
  | some vm_id =>
    match p.flavors_list with
    | .error e =>
      ({ success := false, message := "Erreur lors du resize : " ++ e,
         ancien_flavor := ancien_flavor, nouveau_flavor := nouveau_flavor,
         action := "error" }, st1, trace1 ++ ["flavors_list"])
    | .ok flavors =>
      match flavors.find? (fun f => f == nouveau_flavor) with
      | none =>
        ({ success := false, message := "Flavor introuvable : " ++ nouveau_flavor,
           ancien_flavor := ancien_flavor, nouveau_flavor := nouveau_flavor,
           action := "error" }, st1, trace1 ++ ["flavors_list"])
      | some _ =>
        match p.servers_get vm_id with
        | .error e =>
          ({ success := false, message := "Erreur lors du resize : " ++ e,
             ancien_flavor := ancien_flavor, nouveau_flavor := nouveau_flavor,
             action := "error" }, st1, trace1 ++ ["flavors_list", "servers_get"])
        | .ok _ =>
          match p.submit_resize vm_id with
          | .error e =>
            ({ success := false, message := "Erreur lors du resize : " ++ e,
               ancien_flavor := ancien_flavor, nouveau_flavor := nouveau_flavor,
               action := "error" },
             st1, trace1 ++ ["flavors_list", "servers_get", "resize"])
          | .ok _ =>
            let _ := attendre_statut p.statuses "VERIFY_RESIZE" 0 p.poll_budget
            match p.confirm vm_id with
            | .error e =>
              ({ success := false, message := "Erreur lors du resize : " ++ e,
                 ancien_flavor := ancien_flavor, nouveau_flavor := nouveau_flavor,
                 action := "error" },
               st1, trace1 ++ ["flavors_list", "servers_get", "resize", "poll", "confirm"])
            | .ok _ =>
              ({ success := true,
                 message := "Resize réussi : " ++ vm_name ++ " " ++
                   ancien_flavor ++ " → " ++ nouveau_flavor,
                 ancien_flavor := ancien_flavor, nouveau_flavor := nouveau_flavor,
                 action := "resized" },
               { st1 with current_flavor := nouveau_flavor, last_scaling_time := now },
               trace1 ++ ["flavors_list", "servers_get", "resize", "poll", "confirm"])

/-- `_simuler_resize` (heat_client.py lines 335-367). -/
def simuler_resize (now : ℚ) (st : HeatState)
    (vm_name ancien_flavor nouveau_flavor : String) :
    ResizeOutcome × HeatState × List String :=
  ({ success := true,
     message := "[SIMULATION] Resize réussi : " ++ vm_name ++ " " ++
       ancien_flavor ++ " → " ++ nouveau_flavor,
     ancien_flavor := ancien_flavor, nouveau_flavor := nouveau_flavor,
     action := "simulated" },
   { st with current_flavor := nouveau_flavor, last_scaling_time := now }, [])

/-- `effectuer_resize` (heat_client.py lines 174-220). -/
def effectuer_resize (p : Provider) (now cooldown_seconds : ℚ) (st : HeatState)
    (vm_name nouveau_flavor : String) :
    ResizeOutcome × HeatState × List String :=
  let ancien_flavor := st.current_flavor
  if nouveau_flavor == ancien_flavor then
    ({ success := true,
       message := "Déjà sur le flavor " ++ ancien_flavor ++ " — aucun resize nécessaire",
       ancien_flavor := ancien_flavor, nouveau_flavor := nouveau_flavor,
       action := "none" }, st, [])
  else if !(cooldown_respecte now st.last_scaling_time cooldown_seconds) then
    ({ success := false,
       message := "Cooldown actif — resize reporté (" ++ ancien_flavor ++
         " → " ++ nouveau_flavor ++ ")",
       ancien_flavor := ancien_flavor, nouveau_flavor := nouveau_flavor,
       action := "cooldown" }, st, [])
  else if !st.connected || !st.nova_present then
    simuler_resize now st vm_name ancien_flavor nouveau_flavor
  else
    resize_openstack p now st vm_name ancien_flavor nouveau_flavor

/-- An entry of the `state["logs"]` journal (adapter.py lines 109-115). -/
structure LogEntry where
  time : String
  type_log : String
  message : String
deriving Repr, DecidableEq

/-- `ajouter_log` (adapter.py lines 134-144): prepend the new entry and
keep only the first 50.  The `time.strftime` read is passed as
`time_str`. -/
def ajouter_log (logs : List LogEntry) (time_str message type_log : String) :
    List LogEntry :=
  let logs2 := { time := time_str, type_log := type_log, message := message } :: logs
  if logs2.length > 50 then logs2.take 50 else logs2

/-- The `state["stats"]` counters (adapter.py lines 118-124). -/
structure Stats where
  alertes_recues : Nat
  alertes_valides : Nat
  alertes_rejetees : Nat
  scalings_up : Nat
  scalings_down : Nat
deriving Repr, DecidableEq

/-- The part of the adapter's global `state` dict that `recevoir_alerte`
reads or writes: `state["vm"]` metrics and flavor, the journal and the
counters. -/
structure AdapterState where
  current_flavor : String
  cpu : ℚ
  ram : ℚ
  logs : List LogEntry
  stats : Stats
deriving Repr, DecidableEq

/-- The JSON body returned by the `/alert` route: `reason` is present
only on rejection, `action`/`flavor` only on acceptance. -/
structure AlertResponse where
  success : Bool
  reason : Option String
  action : Option String
  flavor : Option String
deriving Repr, DecidableEq

/-- Everything observable from one `recevoir_alerte` invocation: the
HTTP reply, both updated states, and the `effectuer_resize` outcome when
a resize was attempted. -/
structure RecvResult where
  response : AlertResponse
  http_code : Nat
  astate : AdapterState
  hstate : HeatState
  resize : Option ResizeOutcome
deriving Repr

/-- Numeric payload field, after validation has established it is a
number (the fallback is unreachable on the paths that use it). -/
def asNum (v : Option PyVal) : ℚ :=
  match v with
  | some (PyVal.num q) => q
  | _ => 0

/-- `recevoir_alerte` (adapter.py lines 166-248), the `/alert` route:
count the alert, validate, apply metrics, decide, resize, journal.
Flask plumbing and the WebSocket emission are dropped; the `.error`
case propagates an exception raised by `valider_alerte` (which Flask
would turn into a 500). -/
def recevoir_alerte (p : Provider) (now cooldown_seconds : ℚ) (time_str : String)
    (policies : Policies) (vm_name : String)
    (a0 : AdapterState) (h0 : HeatState) (data : PyDict) :
    Except String RecvResult :=
  let a := { a0 with stats := { a0.stats with alertes_recues := a0.stats.alertes_recues + 1 } }
  match valider_alerte now data with
  | .error e => .error e
  | .ok (valide, raison) =>
  if !valide then
    let a := { a with stats := { a.stats with alertes_rejetees := a.stats.alertes_rejetees + 1 } }
    let a := { a with logs := ajouter_log a.logs time_str ("Alerte rejetée : " ++ raison) "warning" }
    .ok { response := { success := false, reason := some raison, action := none, flavor := none },
          http_code := 400, astate := a, hstate := h0, resize := none }
  else
  let a := { a with stats := { a.stats with alertes_valides := a.stats.alertes_valides + 1 } }
  let a := { a with cpu := asNum (dictGet data "cpu"), ram := asNum (dictGet data "ram") }
  let action := determiner_action (asNum (dictGet data "cpu")) policies
  if action != "none" then
    let flavor_actuel := a.current_flavor
    let nouveau_flavor := determiner_nouveau_flavor action flavor_actuel
    let r := effectuer_resize p now cooldown_seconds h0 vm_name nouveau_flavor
    let resultat := r.1
    if resultat.success && !(resultat.action == "none" || resultat.action == "cooldown") then
      let a := { a with
                 current_flavor := nouveau_flavor,
                 stats := if action == "scale_up" then
                     { a.stats with scalings_up := a.stats.scalings_up + 1 }
                   else { a.stats with scalings_down := a.stats.scalings_down + 1 } }
      let type_log := if action == "scale_up" then "success" else "warning"
      let msg := "Scale : " ++ flavor_actuel ++ " → " ++ nouveau_flavor
      let a := { a with logs := ajouter_log a.logs time_str msg type_log }
      .ok { response := { success := true, reason := none, action := some action,
                          flavor := some a.current_flavor },
            http_code := 200, astate := a, hstate := r.2.1, resize := some resultat }
    else if resultat.action == "cooldown" then
      let a := { a with logs := ajouter_log a.logs time_str "Cooldown actif — scaling reporté" "info" }
      .ok { response := { success := true, reason := none, action := some action,
                          flavor := some a.current_flavor },
            http_code := 200, astate := a, hstate := r.2.1, resize := some resultat }
    else
      let a := { a with logs := ajouter_log a.logs time_str ("Erreur scaling : " ++ resultat.message) "error" }
      .ok { response := { success := true, reason := none, action := some action,
                          flavor := some a.current_flavor },
            http_code := 200, astate := a, hstate := r.2.1, resize := some resultat }
  else
    let a := { a with logs := ajouter_log a.logs time_str "Métriques reçues — Aucune action" "info" }
    .ok { response := { success := true, reason := none, action := some action,
                        flavor := some a.current_flavor },
          http_code := 200, astate := a, hstate := h0, resize := none }

end MetricsAdapter

example : MetricsAdapter.valider_alerte 1000
    [("source", MetricsAdapter.PyVal.str "heat-vm-01"),
     ("token", MetricsAdapter.PyVal.str "heat-secret-token"),
     ("cpu", MetricsAdapter.PyVal.num 50), ("ram", MetricsAdapter.PyVal.num 50),
     ("timestamp", MetricsAdapter.PyVal.num 990)] = .ok (true, "OK") := by
  simp [MetricsAdapter.valider_alerte, MetricsAdapter.dictGet, MetricsAdapter.contientChamp,
    MetricsAdapter.required_fields, MetricsAdapter.cpu_min, MetricsAdapter.cpu_max,
    MetricsAdapter.ram_min, MetricsAdapter.ram_max, MetricsAdapter.max_age_seconds,
    MetricsAdapter.SECRET_TOKEN, MetricsAdapter.strip, List.find?]
  norm_num

example : MetricsAdapter.determiner_action 85 {} = "scale_up" := by
  norm_num [MetricsAdapter.determiner_action]

example : MetricsAdapter.determiner_nouveau_flavor "scale_up" "m1.small" = "m1.medium" := by
  simp [MetricsAdapter.determiner_nouveau_flavor, MetricsAdapter.tableGet,
    MetricsAdapter.progression_scale_up, List.find?]

namespace MetricsAdapter

/-- Claim C10: after every call to `ajouter_log` the journal holds at
most 50 entries, and the new entry is at the front (newest first). -/
theorem ajouter_log_spec (logs : List LogEntry) (t m ty : String) :
    (ajouter_log logs t m ty).length ≤ 50 ∧
    (ajouter_log logs t m ty).head? =
      some { time := t, type_log := ty, message := m } := by
  simp only [ajouter_log]
  constructor
  · split
    · simp
    · next h =>
      simp only [List.length_cons] at h ⊢
      omega
  · split
    · rfl
    · rfl

/-- Claim C8: the cooldown gate permits a resize exactly when the time
elapsed since the last committed resize is at least `cooldown_seconds`;
the boundary case of exactly `cooldown_seconds` elapsed is allowed. -/
theorem cooldown_respecte_spec (now last_scaling_time cooldown_seconds : ℚ) :
    cooldown_respecte now last_scaling_time cooldown_seconds = true ↔
      cooldown_seconds ≤ now - last_scaling_time := by
  unfold cooldown_respecte
  by_cases h : now - last_scaling_time < cooldown_seconds
  · simp [h, not_le]
  · simp [h]
    exact not_lt.mp h

/-- Claim C4: resize at the current tier is a no-op evaluated before the
cooldown check: for every provider, clock, cooldown configuration and
state, it returns `action="none"` with `success=true`, makes no provider
call (empty trace) and returns the state unchanged. -/
theorem effectuer_resize_meme_flavor (p : Provider) (now cooldown_seconds : ℚ)
    (st : HeatState) (vm_name : String) :
    effectuer_resize p now cooldown_seconds st vm_name st.current_flavor =
      ({ success := true,
         message := "Déjà sur le flavor " ++ st.current_flavor ++ " — aucun resize nécessaire",
         ancien_flavor := st.current_flavor, nouveau_flavor := st.current_flavor,
         action := "none" }, st, []) := by
  unfold effectuer_resize
  simp

/-- Claim C5: a resize to a different tier requested while the cooldown
interval has not elapsed returns `action="cooldown"` with
`success=false`, makes no provider call and returns the state (tier and
cooldown timestamp) unchanged. -/
theorem effectuer_resize_cooldown_spec (p : Provider) (now cooldown_seconds : ℚ)
    (st : HeatState) (vm_name nouveau_flavor : String)
    (hne : nouveau_flavor ≠ st.current_flavor)
    (hcd : now - st.last_scaling_time < cooldown_seconds) :
    effectuer_resize p now cooldown_seconds st vm_name nouveau_flavor =
      ({ success := false,
         message := "Cooldown actif — resize reporté (" ++ st.current_flavor ++
           " → " ++ nouveau_flavor ++ ")",
         ancien_flavor := st.current_flavor, nouveau_flavor := nouveau_flavor,
         action := "cooldown" }, st, []) := by
  unfold effectuer_resize cooldown_respecte
  simp [hne, hcd]

/-- A provider whose polled status never leaves `ACTIVE` (so the wait
for `VERIFY_RESIZE` times out) while every other call succeeds. -/
def provider_timeout : Provider :=
  { servers_search := fun _ => .ok ["srv-1"],
    flavors_list := .ok ["m1.small", "m1.medium", "m1.large"],
    servers_get := fun _ => .ok (),
    submit_resize := fun _ => .ok (),
    statuses := fun _ => "ACTIVE",
    poll_budget := 24,
    confirm := fun _ => .ok () }

/-- A live, connected client state on flavor `m1.small` with the VM id
already cached. -/
def etat_live : HeatState :=
  { last_scaling_time := 0, current_flavor := "m1.small", vm_id := some "srv-1",
    connected := true, nova_present := true }

/-- Concrete instantiation of `effectuer_resize_cooldown_spec`:
10 seconds after a scaling at time 0, with a 120-second cooldown, the
resize to `m1.medium` is blocked. -/
theorem effectuer_resize_cooldown_witness :
    ("m1.medium" ≠ etat_live.current_flavor) ∧
    ((10 : ℚ) - etat_live.last_scaling_time < 120) ∧
    effectuer_resize provider_timeout 10 120 etat_live "heat-vm-01" "m1.medium" =
      ({ success := false,
         message := "Cooldown actif — resize reporté (" ++ etat_live.current_flavor ++
           " → " ++ "m1.medium" ++ ")",
         ancien_flavor := etat_live.current_flavor, nouveau_flavor := "m1.medium",
         action := "cooldown" }, etat_live, []) :=
  ⟨by decide, by norm_num [etat_live], effectuer_resize_cooldown_spec
    provider_timeout 10 120 etat_live "heat-vm-01" "m1.medium"
    (by decide) (by norm_num [etat_live])⟩


/-- Claim C6: with the policy invariant
`scale_down_threshold < scale_up_threshold`, the decision is
`scale_up` exactly when cpu strictly exceeds the upper threshold,
`scale_down` exactly when cpu is strictly below the lower threshold, and
`none` otherwise; both comparisons are strict, so cpu exactly at a
threshold yields `none`. -/
theorem determiner_action_spec (cpu : ℚ) (policies : Policies)
    (h : policies.scale_down_threshold < policies.scale_up_threshold) :
    (determiner_action cpu policies = "scale_up" ↔ policies.scale_up_threshold < cpu) ∧
    (determiner_action cpu policies = "scale_down" ↔ cpu < policies.scale_down_threshold) ∧
    (determiner_action cpu policies = "none" ↔
      cpu ≤ policies.scale_up_threshold ∧ policies.scale_down_threshold ≤ cpu) := by
  unfold determiner_action
  split_ifs with h1 h2
  · exact ⟨iff_of_true rfl h1, iff_of_false (by decide) (fun hc => by linarith),
      iff_of_false (by decide) (fun hc => by linarith [hc.1])⟩
  · exact ⟨iff_of_false (by decide) (fun hc => h1 hc), iff_of_true rfl h2,
      iff_of_false (by decide) (fun hc => by linarith [hc.2])⟩
  · exact ⟨iff_of_false (by decide) (fun hc => h1 hc),
      iff_of_false (by decide) (fun hc => h2 hc),
      iff_of_true rfl ⟨not_lt.mp h1, not_lt.mp h2⟩⟩

/-- Concrete instantiation of `determiner_action_spec` at the default
thresholds: cpu exactly at the scale-up threshold yields `none`. -/
theorem determiner_action_witness :
    (20 : ℚ) < 80 ∧
    determiner_action 80 { scale_up_threshold := 80, scale_down_threshold := 20 } = "none" :=
  ⟨by norm_num,
   ((determiner_action_spec 80 { scale_up_threshold := 80, scale_down_threshold := 20 }
      (by norm_num)).2.2).mpr (by norm_num)⟩

/-- `dict.get(k, d)` falls back to the default when no key matches. -/
theorem tableGet_default (table : List (String × String)) (k d : String)
    (h : ∀ p ∈ table, p.1 ≠ k) : tableGet table k d = d := by
  unfold tableGet
  have hnone : table.find? (fun p => p.1 == k) = none :=
    List.find?_eq_none.mpr (fun p hp => by simp [h p hp])
  rw [hnone]

/-- Claim C7: the tier progression saturates at both ends of the ordered
catalog, moves exactly one position otherwise, and returns an unknown
current tier unchanged for any action. -/
theorem determiner_nouveau_flavor_spec :
    determiner_nouveau_flavor "scale_up" "m1.large" = "m1.large" ∧
    determiner_nouveau_flavor "scale_down" "m1.small" = "m1.small" ∧
    (∀ i : Nat, i + 1 < flavor_catalog.length →
      determiner_nouveau_flavor "scale_up" (flavor_catalog.getD i "") =
        flavor_catalog.getD (i + 1) "" ∧
      determiner_nouveau_flavor "scale_down" (flavor_catalog.getD (i + 1) "") =
        flavor_catalog.getD i "") ∧
    (∀ action flavor_actuel : String, flavor_actuel ∉ flavor_catalog →
      determiner_nouveau_flavor action flavor_actuel = flavor_actuel) := by
  refine ⟨by decide, by decide, ?_, ?_⟩
  · intro i hi
    have hcas : i = 0 ∨ i = 1 := by
      simp only [flavor_catalog, List.length_cons, List.length_nil] at hi
      omega
    rcases hcas with rfl | rfl
    · exact ⟨by decide, by decide⟩
    · exact ⟨by decide, by decide⟩
  · intro action flavor_actuel hmem
    simp only [flavor_catalog, List.mem_cons, List.not_mem_nil, or_false, not_or] at hmem
    unfold determiner_nouveau_flavor
    split_ifs with h1 h2
    · refine tableGet_default _ _ _ ?_
      intro p hp
      simp only [progression_scale_up, List.mem_cons, List.not_mem_nil, or_false] at hp
      rcases hp with rfl | rfl | rfl
      · exact Ne.symm hmem.1
      · exact Ne.symm hmem.2.1
      · exact Ne.symm hmem.2.2
    · refine tableGet_default _ _ _ ?_
      intro p hp
      simp only [progression_scale_down, List.mem_cons, List.not_mem_nil, or_false] at hp
      rcases hp with rfl | rfl | rfl
      · exact Ne.symm hmem.2.2
      · exact Ne.symm hmem.2.1
      · exact Ne.symm hmem.1
    · rfl

/-- Concrete instantiation of `determiner_nouveau_flavor_spec`: one
adjacent step up from the bottom of the catalog, and the defensive
default on a tier outside the catalog. -/
theorem determiner_nouveau_flavor_witness :
    (0 + 1 < flavor_catalog.length ∧
      determiner_nouveau_flavor "scale_up" (flavor_catalog.getD 0 "") =
        flavor_catalog.getD (0 + 1) "") ∧
    ("m2.xlarge" ∉ flavor_catalog ∧
      determiner_nouveau_flavor "scale_up" "m2.xlarge" = "m2.xlarge") :=
  ⟨⟨by decide, (determiner_nouveau_flavor_spec.2.2.1 0 (by decide)).1⟩,
   ⟨by decide, determiner_nouveau_flavor_spec.2.2.2 "scale_up" "m2.xlarge" (by decide)⟩⟩


/-- Claim C9: whenever the payload carries all required fields and a
token different from the shared secret, validation rejects with the
authentication reason, whatever the other field values are (the range,
freshness and source checks are never reached).  `valider_alerte` is a
pure function of `(now, data)`, so the same input always yields the same
rejection reason. -/
theorem valider_alerte_token_errone (now : ℚ) (data : PyDict)
    (hfields : ∀ champ ∈ required_fields, contientChamp data champ = true)
    (htok : dictGet data "token" ≠ some (PyVal.str SECRET_TOKEN)) :
    valider_alerte now data = .ok (false, "Token d\x27authentification invalide") := by
  have hne : data.isEmpty = false := by
    cases data with
    | nil =>
      have h0 := hfields "token" (by decide)
      simp [contientChamp, dictGet] at h0
    | cons a l => rfl
  have hfind : required_fields.find? (fun champ => !(contientChamp data champ)) = none :=
    List.find?_eq_none.mpr (fun champ hc => by simp [hfields champ hc])
  obtain ⟨tok, htokv⟩ := Option.isSome_iff_exists.mp
    (by simpa [contientChamp] using hfields "token" (by decide))
  have htokne : tok ≠ PyVal.str SECRET_TOKEN := fun he => htok (by rw [htokv, he])
  simp [valider_alerte, hne, hfind, htokv, htokne]

/-- An alert whose token is wrong and whose cpu is also out of range. -/
def alerte_token_errone : PyDict :=
  [("source", PyVal.str "heat-vm-01"), ("token", PyVal.str "mauvais-token"),
   ("cpu", PyVal.num 150), ("ram", PyVal.num 50), ("timestamp", PyVal.num 990)]

/-- Concrete instantiation of `valider_alerte_token_errone`: with both a
wrong token and an out-of-range cpu, the rejection reason is the
authentication one. -/
theorem valider_alerte_token_errone_witness :
    (∀ champ ∈ required_fields, contientChamp alerte_token_errone champ = true) ∧
    dictGet alerte_token_errone "token" ≠ some (PyVal.str SECRET_TOKEN) ∧
    valider_alerte 1000 alerte_token_errone =
      .ok (false, "Token d\x27authentification invalide") :=
  ⟨by decide, by decide,
   valider_alerte_token_errone 1000 alerte_token_errone (by decide) (by decide)⟩

/-- An otherwise fully valid alert whose `timestamp` field holds a
string instead of a number. -/
def alerte_timestamp_texte : PyDict :=
  [("source", PyVal.str "heat-vm-01"), ("token", PyVal.str "heat-secret-token"),
   ("cpu", PyVal.num 50), ("ram", PyVal.num 50), ("timestamp", PyVal.str "plus tard")]

/-- Claim C2 evaluation: on a payload whose `timestamp` is a string,
`valider_alerte` does not return a `(bool, reason)` pair — the
subtraction `time.time() - timestamp` raises a `TypeError` that the
function does not catch (validator.py line 101). -/
theorem valider_alerte_timestamp_texte_leve :
    valider_alerte 1000 alerte_timestamp_texte =
      .error "TypeError: unsupported operand type for -: float and str" := by
  simp [valider_alerte, alerte_timestamp_texte, dictGet, contientChamp, required_fields,
    cpu_min, cpu_max, ram_min, ram_max, SECRET_TOKEN, List.find?]
  norm_num

/-- Claim C1 evaluation: with the VERIFY_RESIZE status never reached
(the polling helper times out and returns `false`), the Live path of
`effectuer_resize` nevertheless calls `confirm` on the provider,
returns `action="resized"` with `success=true`, and commits both the
tier and the cooldown timestamp — heat_client.py line 271 discards the
result of `_attendre_statut` before line 274 confirms. -/
theorem effectuer_resize_timeout_confirme :
    attendre_statut provider_timeout.statuses "VERIFY_RESIZE" 0 provider_timeout.poll_budget
      = false ∧
    effectuer_resize provider_timeout 1000 120 etat_live "heat-vm-01" "m1.medium" =
      ({ success := true,
         message := "Resize réussi : " ++ "heat-vm-01" ++ " " ++ "m1.small" ++
           " → " ++ "m1.medium",
         ancien_flavor := "m1.small", nouveau_flavor := "m1.medium",
         action := "resized" },
       { last_scaling_time := 1000, current_flavor := "m1.medium", vm_id := some "srv-1",
         connected := true, nova_present := true },
       ["flavors_list", "servers_get", "resize", "poll", "confirm"]) := by
  constructor
  · decide
  · simp [effectuer_resize, cooldown_respecte, resize_openstack, recuperer_vm_id,
      provider_timeout, etat_live, List.find?]
    norm_num


/-- In the Live path, a successful outcome is always `resized`: every
error exit of `_resize_openstack` reports `success=false`. -/
theorem resize_openstack_reussite (p : Provider) (now : ℚ) (st : HeatState)
    (vm_name ancien_flavor nouveau_flavor : String)
    (result : ResizeOutcome × HeatState × List String)
    (hE : resize_openstack p now st vm_name ancien_flavor nouveau_flavor = result)
    (h : result.1.success = true) : result.1.action = "resized" := by
  simp only [resize_openstack] at hE
  repeat' split at hE
  all_goals subst hE
  all_goals simp_all

/-- A successful `effectuer_resize` outcome carries action `none`,
`simulated` or `resized`; `cooldown` and `error` outcomes always have
`success=false`. -/
theorem effectuer_resize_reussite (p : Provider) (now cooldown_seconds : ℚ)
    (st : HeatState) (vm_name nouveau_flavor : String)
    (h : (effectuer_resize p now cooldown_seconds st vm_name nouveau_flavor).1.success = true) :
    (effectuer_resize p now cooldown_seconds st vm_name nouveau_flavor).1.action = "none" ∨
    (effectuer_resize p now cooldown_seconds st vm_name nouveau_flavor).1.action = "simulated" ∨
    (effectuer_resize p now cooldown_seconds st vm_name nouveau_flavor).1.action = "resized" := by
  simp only [effectuer_resize] at h ⊢
  cases hsame : (nouveau_flavor == st.current_flavor) with
  | true => simp [hsame]
  | false =>
    have hne : nouveau_flavor ≠ st.current_flavor := by simpa using hsame
    cases hcd : cooldown_respecte now st.last_scaling_time cooldown_seconds with
    | false => simp [hne, hcd] at h
    | true =>
      cases hoff : (!st.connected || !st.nova_present) with
      | true => simp [hne, hcd, hoff, simuler_resize]
      | false =>
        simp only [hsame, hcd, hoff, Bool.false_eq_true, if_false] at h ⊢
        right; right
        exact resize_openstack_reussite p now st vm_name st.current_flavor nouveau_flavor _ rfl h

/-- Claim C3: across one `/alert` round, the adapter tier
`state["vm"]["current_flavor"]` changes only when a resize was attempted
and its outcome is `resized` or `simulated`; validation-only rounds,
decision-only rounds, and `none`/`cooldown`/`error` outcomes leave it
unchanged. -/
theorem current_flavor_change_implique_resize
    (p : Provider) (now cooldown_seconds : ℚ) (time_str : String)
    (policies : Policies) (vm_name : String)
    (a0 : AdapterState) (h0 : HeatState) (data : PyDict) (r : RecvResult)
    (hr : recevoir_alerte p now cooldown_seconds time_str policies vm_name a0 h0 data = .ok r)
    (hch : r.astate.current_flavor ≠ a0.current_flavor) :
    ∃ o, r.resize = some o ∧ (o.action = "resized" ∨ o.action = "simulated") := by
  simp only [recevoir_alerte] at hr
  split at hr
  · exact absurd hr (by simp)
  next valide raison hval =>
  split at hr
  · cases hr
    exact absurd rfl hch
  split at hr
  · split at hr
    next hcond =>
      cases hr
      refine ⟨_, rfl, ?_⟩
      have hsucc := (Bool.and_eq_true _ _).mp hcond
      have hact := effectuer_resize_reussite p now cooldown_seconds h0 vm_name
        (determiner_nouveau_flavor
          (determiner_action (asNum (dictGet data "cpu")) policies) a0.current_flavor)
        hsucc.1
      rcases hact with hnone | hsim | hres
      · exfalso
        have := hsucc.2
        simp [hnone] at this
      · exact Or.inr hsim
      · exact Or.inl hres
    · split at hr
      · cases hr
        exact absurd rfl hch
      · cases hr
        exact absurd rfl hch
  · cases hr
    exact absurd rfl hch


/-- Adapter state at process start: flavor `m1.small`, empty journal and
zeroed counters. -/
def a0_scenario : AdapterState :=
  { current_flavor := "m1.small", cpu := 0, ram := 0, logs := [],
    stats := { alertes_recues := 0, alertes_valides := 0, alertes_rejetees := 0,
               scalings_up := 0, scalings_down := 0 } }

/-- Heat-client state in simulation mode (not connected). -/
def h0_simulation : HeatState :=
  { last_scaling_time := 0, current_flavor := "m1.small", vm_id := none,
    connected := false, nova_present := false }

/-- A valid alert with cpu 85, above the default scale-up threshold. -/
def data_cpu_eleve : PyDict :=
  [("source", PyVal.str "heat-vm-01"), ("token", PyVal.str "heat-secret-token"),
   ("cpu", PyVal.num 85), ("ram", PyVal.num 40), ("timestamp", PyVal.num 990)]

/-- The full observable result of the cpu-85 round in simulation mode. -/
def resultat_simulation : RecvResult :=
  { response := { success := true, reason := none, action := some "scale_up",
                  flavor := some "m1.medium" },
    http_code := 200,
    astate := { current_flavor := "m1.medium", cpu := 85, ram := 40,
                logs := [{ time := "10:00", type_log := "success",
                           message := "Scale : " ++ "m1.small" ++ " → " ++ "m1.medium" }],
                stats := { alertes_recues := 1, alertes_valides := 1, alertes_rejetees := 0,
                           scalings_up := 1, scalings_down := 0 } },
    hstate := { last_scaling_time := 1000, current_flavor := "m1.medium", vm_id := none,
                connected := false, nova_present := false },
    resize := some { success := true,
                     message := "[SIMULATION] Resize réussi : " ++ "heat-vm-01" ++ " " ++
                       "m1.small" ++ " → " ++ "m1.medium",
                     ancien_flavor := "m1.small", nouveau_flavor := "m1.medium",
                     action := "simulated" } }

/-- Concrete instantiation of `current_flavor_change_implique_resize`:
a valid cpu-85 alert in simulation mode changes the tier, and the resize
outcome it produced is `simulated`. -/
theorem current_flavor_change_implique_resize_witness :
    recevoir_alerte provider_timeout 1000 120 "10:00" {} "heat-vm-01"
        a0_scenario h0_simulation data_cpu_eleve = .ok resultat_simulation ∧
    resultat_simulation.astate.current_flavor ≠ a0_scenario.current_flavor ∧
    ∃ o, resultat_simulation.resize = some o ∧
      (o.action = "resized" ∨ o.action = "simulated") := by
  have heq : recevoir_alerte provider_timeout 1000 120 "10:00" {} "heat-vm-01"
      a0_scenario h0_simulation data_cpu_eleve = .ok resultat_simulation := by
    simp [recevoir_alerte, valider_alerte, effectuer_resize, cooldown_respecte,
      simuler_resize, ajouter_log, determiner_action, determiner_nouveau_flavor,
      tableGet, asNum, dictGet, contientChamp, required_fields, SECRET_TOKEN,
      cpu_min, cpu_max, ram_min, ram_max, max_age_seconds, strip,
      progression_scale_up, progression_scale_down, List.find?,
      a0_scenario, h0_simulation, data_cpu_eleve, provider_timeout, resultat_simulation]
    norm_num
    rw [if_neg (show ¬("scale_up" = "none") by decide),
        if_pos (show ¬("simulated" = "none") ∧ ¬("simulated" = "cooldown") by decide)]
    rfl
  refine ⟨heq, by simp [resultat_simulation, a0_scenario], ?_⟩
  exact current_flavor_change_implique_resize provider_timeout 1000 120 "10:00" {}
    "heat-vm-01" a0_scenario h0_simulation data_cpu_eleve resultat_simulation heq
    (by simp [resultat_simulation, a0_scenario])

end MetricsAdapter
